import Mathlib

/-
Verification of the xara_mesh Triangle binding
(src/xara_mesh/schewchuk/{_triangle_ct.py, trio.py, core.py}).

Shallow embedding conventions:
* A ctypes pointer is a Nat address; 0 models NULL (ctypes truthiness:
  a POINTER is falsy exactly when it is NULL).
* The c_int count fields of the TriangulateIO struct are modelled as Nat:
  every value the modelled code writes into them is an array extent or
  element count (overflow past 2^31 is not exercised by any claim).
* A numpy array is modelled by its data address and its shape; the setters
  receive the array as already converted by np.ascontiguousarray, whose
  result's element values are never inspected by the bookkeeping code.
* Raising a Python exception is modelled by Except.error carrying the
  exception message; since every setter raises before assigning any struct
  field, an error leaves the record exactly as it was.
* The native triangulate entry point is an abstract parameter: given the
  option string and the current contents of the three structs (passed by
  reference), it returns a status code and the new contents of the three
  structs.  The trifree entry point is modelled by recording the sequence
  of addresses passed to it.
-/

deriving instance DecidableEq for Except

/-- Model of a numpy ndarray as seen by the bookkeeping code: its data
address (arr.ctypes.data) and its shape tuple. -/
structure NpArray where
  addr : Nat
  shape : List Nat
  deriving Repr, DecidableEq

/-- Number of dimensions, arr.ndim. -/
def NpArray.ndim (a : NpArray) : Nat := a.shape.length

/-- Total number of elements, arr.size (product of the shape). -/
def NpArray.size (a : NpArray) : Nat := a.shape.prod

/-- Reading arr.shape[i]; raises IndexError when the array has fewer
than i+1 dimensions, as numpy does. -/
def npShapeAt (a : NpArray) (i : Nat) : Except String Nat :=
  match a.shape.get? i with
  | some n => Except.ok n
  | none => Except.error "IndexError: tuple index out of range"

/-- Model of the ctypes Structure TriangulateIO of _triangle_ct.py
(lines 31-56): pointer fields are addresses (0 = NULL), count fields are
the c_int values.  Field order follows the _fields_ list.  All fields are
NULL/0 by default, as a fresh ctypes Structure is zero-initialised. -/
structure TriangulateIO where
  pointlist : Nat := 0
  pointattributelist : Nat := 0
  pointmarkerlist : Nat := 0
  numberofpoints : Nat := 0
  numberofpointattributes : Nat := 0
  trianglelist : Nat := 0
  triangleattributelist : Nat := 0
  trianglearealist : Nat := 0
  neighborlist : Nat := 0
  numberoftriangles : Nat := 0
  numberofcorners : Nat := 0
  numberoftriangleattributes : Nat := 0
  segmentlist : Nat := 0
  segmentmarkerlist : Nat := 0
  numberofsegments : Nat := 0
  holelist : Nat := 0
  numberofholes : Nat := 0
  regionlist : Nat := 0
  numberofregions : Nat := 0
  edgelist : Nat := 0
  edgemarkerlist : Nat := 0
  normlist : Nat := 0
  numberofedges : Nat := 0
  deriving Repr, DecidableEq

/-- Model of trio.TriangleIO: the struct, the list of numpy buffers kept
alive (self._py_buffers) and the list of Triangle-malloc'd pointers to
free later (self._c_to_free, the Ownership Ledger). -/
structure TriangleIO where
  io : TriangulateIO
  py_buffers : List NpArray
  c_to_free : List Nat
  deriving Repr, DecidableEq

/-- A freshly constructed TriangleIO() before any dict processing
(trio.py lines 22-25): zeroed struct, no buffers, empty ledger. -/
def TriangleIO.empty : TriangleIO :=
  { io := {}, py_buffers := [], c_to_free := [] }

/-- trio.py lines 30-33, TriangleIO._keep: append the array to
self._py_buffers and return the pointer cast of its data for the struct. -/
def TriangleIO._keep (t : TriangleIO) (arr : NpArray) : TriangleIO × Nat :=
  ({ t with py_buffers := t.py_buffers ++ [arr] }, arr.addr)

/-- trio.py lines 37-42, set_vertices.  The source guard is
`verts.ndim != 2 or verts.shape[1] != 2` with Python's short-circuit or,
so shape[1] is only consulted when ndim = 2 and the List.getD read is
exact. -/
def TriangleIO.set_vertices (t : TriangleIO) (verts : NpArray) : Except String TriangleIO :=
  if verts.ndim ≠ 2 ∨ verts.shape.getD 1 0 ≠ 2 then
    Except.error "vertices must be (N,2) array-like"
  else
    let kp := t._keep verts
    Except.ok { kp.1 with io :=
      { kp.1.io with numberofpoints := verts.shape.getD 0 0, pointlist := kp.2 } }

/-- trio.py lines 45-50, set_vertex_attributes: reject when
attr.shape[0] differs from the already-set numberofpoints; on success set
numberofpointattributes from attr.shape[1] and keep the buffer. -/
def TriangleIO.set_vertex_attributes (t : TriangleIO) (attr : NpArray) : Except String TriangleIO :=
  match npShapeAt attr 0 with
  | Except.error e => Except.error e
  | Except.ok r0 =>
    if r0 ≠ t.io.numberofpoints then
      Except.error "vertex_attributes length mismatch"
    else
      match npShapeAt attr 1 with
      | Except.error e => Except.error e
      | Except.ok r1 =>
        let kp := t._keep attr
        Except.ok { kp.1 with io :=
          { kp.1.io with numberofpointattributes := r1, pointattributelist := kp.2 } }

/-- trio.py lines 52-56, set_vertex_markers: mk.size must equal
numberofpoints. -/
def TriangleIO.set_vertex_markers (t : TriangleIO) (mk : NpArray) : Except String TriangleIO :=
  if mk.size ≠ t.io.numberofpoints then
    Except.error "vertex_markers length mismatch"
  else
    let kp := t._keep mk
    Except.ok { kp.1 with io := { kp.1.io with pointmarkerlist := kp.2 } }

/-- trio.py lines 59-63, set_triangles: no validation at all; sets
numberoftriangles from tris.shape[0] and numberofcorners from
tris.shape[1] and keeps the buffer.  (For an array of fewer than two
dimensions the shape reads raise IndexError; the Python source would
assign numberoftriangles before shape[1] raises, an incomplete mutation no
claim exercises.) -/
def TriangleIO.set_triangles (t : TriangleIO) (tris : NpArray) : Except String TriangleIO :=
  match npShapeAt tris 0 with
  | Except.error e => Except.error e
  | Except.ok m =>
    match npShapeAt tris 1 with
    | Except.error e => Except.error e
    | Except.ok c =>
      let kp := t._keep tris
      Except.ok { kp.1 with io :=
        { kp.1.io with numberoftriangles := m, numberofcorners := c, trianglelist := kp.2 } }

/-- trio.py lines 65-70, set_triangle_attributes: attr.shape[0] must
equal the already-set numberoftriangles. -/
def TriangleIO.set_triangle_attributes (t : TriangleIO) (attr : NpArray) : Except String TriangleIO :=
  match npShapeAt attr 0 with
  | Except.error e => Except.error e
  | Except.ok r0 =>
    if r0 ≠ t.io.numberoftriangles then
      Except.error "triangle_attributes length mismatch"
    else
      match npShapeAt attr 1 with
      | Except.error e => Except.error e
      | Except.ok r1 =>
        let kp := t._keep attr
        Except.ok { kp.1 with io :=
          { kp.1.io with numberoftriangleattributes := r1, triangleattributelist := kp.2 } }

/-- trio.py lines 72-76, set_triangle_areas: a.size must equal
numberoftriangles. -/
def TriangleIO.set_triangle_areas (t : TriangleIO) (a : NpArray) : Except String TriangleIO :=
  if a.size ≠ t.io.numberoftriangles then
    Except.error "triangle_max_area length mismatch"
  else
    let kp := t._keep a
    Except.ok { kp.1 with io := { kp.1.io with trianglearealist := kp.2 } }

/-- trio.py lines 79-84, set_segments: seg.shape[1] must be exactly 2
(reading shape[1] of a lower-dimensional array raises IndexError). -/
def TriangleIO.set_segments (t : TriangleIO) (seg : NpArray) : Except String TriangleIO :=
  match npShapeAt seg 1 with
  | Except.error e => Except.error e
  | Except.ok c =>
    if c ≠ 2 then
      Except.error "segments must be (N,2)"
    else
      let kp := t._keep seg
      Except.ok { kp.1 with io :=
        { kp.1.io with numberofsegments := seg.shape.getD 0 0, segmentlist := kp.2 } }

/-- trio.py lines 86-90, set_segment_markers: mk.size must equal
numberofsegments. -/
def TriangleIO.set_segment_markers (t : TriangleIO) (mk : NpArray) : Except String TriangleIO :=
  if mk.size ≠ t.io.numberofsegments then
    Except.error "segment_markers length mismatch"
  else
    let kp := t._keep mk
    Except.ok { kp.1 with io := { kp.1.io with segmentmarkerlist := kp.2 } }

/-- trio.py lines 92-97, set_holes: holes.shape[1] must be exactly 2. -/
def TriangleIO.set_holes (t : TriangleIO) (holes : NpArray) : Except String TriangleIO :=
  match npShapeAt holes 1 with
  | Except.error e => Except.error e
  | Except.ok c =>
    if c ≠ 2 then
      Except.error "holes must be (N,2)"
    else
      let kp := t._keep holes
      Except.ok { kp.1 with io :=
        { kp.1.io with numberofholes := holes.shape.getD 0 0, holelist := kp.2 } }

/-- One region dict as consumed by set_regions: a representative vertex,
a marker and a max-area bound.  The numeric values are copied into the
flattened array but never inspected by the bookkeeping code, so they are
modelled abstractly as integers. -/
structure Region where
  vertex0 : Int
  vertex1 : Int
  marker : Int
  max_area : Int
  deriving Repr, DecidableEq

/-- trio.py lines 99-105, set_regions: builds a fresh (len(regs), 4)
float64 array with np.empty and keeps it.  The address np.empty chooses
for the fresh array is a parameter of the model. -/
def TriangleIO.set_regions (t : TriangleIO) (regs : List Region) (fresh : Nat) : Except String TriangleIO :=
  let arr : NpArray := { addr := fresh, shape := [regs.length, 4] }
  let kp := t._keep arr
  Except.ok { kp.1 with io :=
    { kp.1.io with numberofregions := regs.length, regionlist := kp.2 } }

/-- The recognized keys of the input geometry dict (core.py passes the
caller's dict to TriangleIO, trio.py lines 108-123).  Absent keys are
modelled by none.  For regions the second component is the address
np.empty picks for the flattened array (see set_regions). -/
structure InputDict where
  vertices : Option NpArray := none
  vertex_attributes : Option NpArray := none
  vertex_markers : Option NpArray := none
  triangles : Option NpArray := none
  triangle_attributes : Option NpArray := none
  triangle_max_area : Option NpArray := none
  segments : Option NpArray := none
  segment_markers : Option NpArray := none
  holes : Option NpArray := none
  regions : Option (List Region × Nat) := none
  deriving Repr, DecidableEq

/-- Sequencing of two steps of _from_dict: a raised exception aborts the
rest of the method (Except bind, written out for easy rewriting). -/
def andThen (r : Except String TriangleIO) (f : TriangleIO → Except String TriangleIO) :
    Except String TriangleIO :=
  match r with
  | Except.error e => Except.error e
  | Except.ok t => f t

/-- One optional-key step of _from_dict: run the setter when the key is
present, otherwise leave the record alone. -/
def optStep (o : Option NpArray) (f : TriangleIO → NpArray → Except String TriangleIO)
    (t : TriangleIO) : Except String TriangleIO :=
  match o with
  | none => Except.ok t
  | some a => f t a

/-- trio.py lines 108-123, TriangleIO._from_dict: run the setters for the
keys present in the dict, in source order.  triangle_attributes and
triangle_max_area are only consulted inside the triangles branch, and
segment_markers only inside the segments branch, exactly as in the
source. -/
def TriangleIO._from_dict (t0 : TriangleIO) (d : InputDict) : Except String TriangleIO :=
  andThen (optStep d.vertices TriangleIO.set_vertices t0) (fun t1 =>
  andThen (optStep d.vertex_attributes TriangleIO.set_vertex_attributes t1) (fun t2 =>
  andThen (optStep d.vertex_markers TriangleIO.set_vertex_markers t2) (fun t3 =>
  andThen
    (match d.triangles with
     | none => Except.ok t3
     | some tr =>
       andThen (t3.set_triangles tr) (fun u1 =>
       andThen (optStep d.triangle_attributes TriangleIO.set_triangle_attributes u1) (fun u2 =>
       optStep d.triangle_max_area TriangleIO.set_triangle_areas u2)))
    (fun t4 =>
  andThen
    (match d.segments with
     | none => Except.ok t4
     | some sg =>
       andThen (t4.set_segments sg) (fun u1 =>
       optStep d.segment_markers TriangleIO.set_segment_markers u1))
    (fun t5 =>
  andThen (optStep d.holes TriangleIO.set_holes t5) (fun t6 =>
  match d.regions with
  | none => Except.ok t6
  | some rg => t6.set_regions rg.1 rg.2))))))

/-- trio.py lines 22-27, TriangleIO.__init__: start from the zeroed
record and, when a dict is supplied, populate it via _from_dict. -/
def TriangleIO.init (d : Option InputDict) : Except String TriangleIO :=
  match d with
  | none => Except.ok TriangleIO.empty
  | some dd => TriangleIO.empty._from_dict dd

/-- One caller-facing harvested array of to_dict: the address it wraps
and the shape handed to np.ctypeslib.as_array.  Whether the entry is then
copied (np_fmt) or turned into nested lists does not change the address
or the shape, so that distinction is not modelled further. -/
structure OutArray where
  addr : Nat
  shape : List Nat
  deriving Repr, DecidableEq

/-- trio.py lines 126-140, TriangleIO.to_dict: expose pointlist as an
(numberofpoints, 2) array under "vertices" when non-NULL, and
trianglelist as an (numberoftriangles, numberofcorners) array under
"triangles" when non-NULL.  No other struct field is exposed (the source
ends with a comment inviting the reader to add the rest). -/
def TriangleIO.to_dict (t : TriangleIO) (np_fmt : Bool := false) : List (String × OutArray) :=
  (if t.io.pointlist ≠ 0 then
    [("vertices", { addr := t.io.pointlist, shape := [t.io.numberofpoints, 2] })]
   else [])
  ++
  (if t.io.trianglelist ≠ 0 then
    [("triangles", { addr := t.io.trianglelist,
                     shape := [t.io.numberoftriangles, t.io.numberofcorners] })]
   else [])

/-- trio.py lines 143-145, TriangleIO._take_cptr: record a
Triangle-malloc'd pointer in the ledger when it is non-NULL. -/
def TriangleIO._take_cptr (t : TriangleIO) (ptr : Nat) : TriangleIO :=
  if ptr ≠ 0 then { t with c_to_free := t.c_to_free ++ [ptr] } else t

/-- The tuple of pointer-field names walked by collect_after_call
(trio.py lines 153-157), in source order, read off a struct value. -/
def collectFields (io : TriangulateIO) : List Nat :=
  [io.pointlist, io.pointattributelist, io.pointmarkerlist,
   io.trianglelist, io.triangleattributelist, io.trianglearealist,
   io.neighborlist, io.segmentlist, io.segmentmarkerlist,
   io.holelist, io.regionlist, io.edgelist, io.edgemarkerlist,
   io.normlist]

/-- Addresses of the numpy buffers currently kept alive by the record
(buf.ctypes.data for buf in self._py_buffers). -/
def pyBufferAddrs (t : TriangleIO) : List Nat :=
  t.py_buffers.map NpArray.addr

/-- The comparison `ptr == buf.ctypes.data` of trio.py line 159.  ptr is
a ctypes pointer object read from a Structure field and buf.ctypes.data
is a Python int; ctypes pointers define no value equality, so in CPython
this comparison is False whatever the two addresses are.  The alias
check of collect_after_call is therefore inert. -/
def ptrEqData (ptr bufData : Nat) : Bool := false

/-- The body of the collect_after_call loop (trio.py lines 158-160): take
the pointer into the ledger when it is non-NULL and
`any(ptr == buf.ctypes.data for buf in self._py_buffers)` does not hold.
Since ptrEqData is identically False the any() never fires, so every
non-NULL pointer field is taken, kept buffers notwithstanding. -/
def harvestStep (s : TriangleIO) (ptr : Nat) : TriangleIO :=
  if ptr ≠ 0 ∧ ¬ s.py_buffers.any (fun buf => ptrEqData ptr buf.addr) then
    s._take_cptr ptr
  else s

/-- trio.py lines 147-160, TriangleIO.collect_after_call: walk the
pointer fields of the struct and record every non-NULL pointer whose
comparison against the kept buffers fails — which, with the inert
pointer/int comparison, is every non-NULL pointer. -/
def TriangleIO.collect_after_call (t : TriangleIO) : TriangleIO :=
  (collectFields t.io).foldl harvestStep t

/-- The addresses a single run of collect_after_call appends to the
ledger: since the alias comparison is identically False, these are
exactly the non-NULL pointer fields of the struct. -/
def nativeHarvested (t : TriangleIO) : List Nat :=
  (collectFields t.io).filter (fun p => p ≠ 0)

/-- trio.py lines 162-164, TriangleIO.__del__: pass every entry of
self._c_to_free to _trifree, in list order.  The first component is the
trace of addresses handed to the native deallocation entry point; the
second is the record state the method leaves behind (it mutates nothing;
in particular it does not clear _c_to_free). -/
def TriangleIO.del (t : TriangleIO) : List Nat × TriangleIO :=
  (t.c_to_free.foldl (fun trace p => trace ++ [p]) [], t)

/-- Result of one native triangulate invocation (modelling the by-ref
call in core.py lines 25-28): the returned status and the contents the
native routine leaves in the three structs. -/
structure NativeResult where
  status : Int
  rin : TriangulateIO
  rout : TriangulateIO
  rvor : TriangulateIO
  deriving Repr, DecidableEq

/-- The abstract native triangulate entry point: option string and the
current contents of the input, output and voronoi structs to the new
status/contents. -/
def NativeFn : Type :=
  String → TriangulateIO → TriangulateIO → TriangulateIO → NativeResult

/-- core.py lines 11-14, CyTriangle.__init__: an input record built from
the caller's dict and two fresh empty records for output and voronoi. -/
structure CyTriangle where
  _in : TriangleIO
  _out : TriangleIO
  _vor : TriangleIO
  deriving Repr, DecidableEq

/-- Constructing CyTriangle(input_dict): a validation error raised while
populating the input record propagates and no object is produced. -/
def CyTriangle.init (d : Option InputDict) : Except String CyTriangle :=
  match TriangleIO.init d with
  | Except.error e => Except.error e
  | Except.ok tin =>
    Except.ok { _in := tin, _out := TriangleIO.empty, _vor := TriangleIO.empty }

/-- Everything observable about one _run invocation: the option string
passed to the native entry point, the state of the three records
afterwards, and the raised error or returned output record. -/
structure RunResult where
  opts : String
  post : CyTriangle
  result : Except String TriangleIO

/-- core.py lines 23-33, CyTriangle._run: build the option string, invoke
the native routine once with the three structs by reference, raise
RuntimeError on a non-zero status (the structs keep whatever the native
routine wrote, but no harvesting happens), and on status 0 harvest the
output and voronoi records and return the output record. -/
def CyTriangle._run (native : NativeFn) (t : CyTriangle) (extra_flags : String)
    (verbose : Bool) : RunResult :=
  let opts := (if verbose then "V" else "Q") ++ "z" ++ extra_flags
  let r := native opts t._in.io t._out.io t._vor.io
  let tin : TriangleIO := { t._in with io := r.rin }
  let tout : TriangleIO := { t._out with io := r.rout }
  let tvor : TriangleIO := { t._vor with io := r.rvor }
  if r.status ≠ 0 then
    { opts := opts,
      post := { _in := tin, _out := tout, _vor := tvor },
      result := Except.error ("triangulate() returned " ++ toString r.status) }
  else
    let tout2 := tout.collect_after_call
    let tvor2 := tvor.collect_after_call
    { opts := opts,
      post := { _in := tin, _out := tout2, _vor := tvor2 },
      result := Except.ok tout2 }

/-- core.py line 36-37, CyTriangle.triangulate. -/
def CyTriangle.triangulate (native : NativeFn) (t : CyTriangle) (flags : String := "")
    (verbose : Bool := false) : RunResult :=
  t._run native flags verbose

/-- core.py line 39-40, CyTriangle.delaunay. -/
def CyTriangle.delaunay (native : NativeFn) (t : CyTriangle) (verbose : Bool := false) :
    RunResult :=
  t._run native "" verbose

/-- core.py line 42-43, CyTriangle.convex_hull. -/
def CyTriangle.convex_hull (native : NativeFn) (t : CyTriangle) (verbose : Bool := false) :
    RunResult :=
  t._run native "c" verbose

/-- core.py line 45-46, CyTriangle.voronoi. -/
def CyTriangle.voronoi (native : NativeFn) (t : CyTriangle) (verbose : Bool := false) :
    RunResult :=
  t._run native "v" verbose

/-- Concrete record for exercising collect_after_call twice: one non-NULL
output pointer (address 100) not owned by any kept numpy buffer. -/
def c1rec : TriangleIO :=
  { io := { pointlist := 100 }, py_buffers := [], c_to_free := [] }

/-- Concrete input dict whose single vertices buffer lives at address 100. -/
def c2dict : InputDict :=
  { vertices := some { addr := 100, shape := [3, 2] } }

/-- The session CyTriangle(c2dict) builds: input record holding the
vertices buffer at address 100, fresh empty output and voronoi records. -/
def c2session : CyTriangle :=
  { _in := { io := { pointlist := 100, numberofpoints := 3 },
             py_buffers := [{ addr := 100, shape := [3, 2] }],
             c_to_free := [] },
    _out := TriangleIO.empty,
    _vor := TriangleIO.empty }

/-- A native stub that succeeds and hands the caller-owned input buffer
address 100 back in the output struct's pointlist (the aliasing case the
spec describes as possible). -/
def c2nativeAlias : NativeFn :=
  fun _ i o v => { status := 0, rin := i, rout := { o with pointlist := 100 }, rvor := v }

/-- Concrete input dict for the amended-harvest witness: one vertices
buffer at address 200. -/
def c2wdict : InputDict :=
  { vertices := some { addr := 200, shape := [1, 2] } }

/-- The session CyTriangle(c2wdict) builds. -/
def c2wsession : CyTriangle :=
  { _in := { io := { pointlist := 200, numberofpoints := 1 },
             py_buffers := [{ addr := 200, shape := [1, 2] }],
             c_to_free := [] },
    _out := TriangleIO.empty,
    _vor := TriangleIO.empty }

/-- A native stub that succeeds, allocating fresh output arrays at
addresses 300 and 400. -/
def c2wnative : NativeFn :=
  fun _ i o v =>
    { status := 0, rin := i,
      rout := { o with pointlist := 300, trianglelist := 400 }, rvor := v }

/-- Concrete record whose ledger holds one address. -/
def c3rec : TriangleIO :=
  { io := {}, py_buffers := [], c_to_free := [100] }

/-- Concrete record whose ledger holds the same address twice (the state
a double harvest produces). -/
def c3dup : TriangleIO :=
  { io := {}, py_buffers := [], c_to_free := [7, 7] }

/-- Concrete record with a duplicate-free two-entry ledger. -/
def c3wrec : TriangleIO :=
  { io := {}, py_buffers := [], c_to_free := [4, 9] }

/-- An empty session (no input geometry). -/
def c4session : CyTriangle :=
  { _in := TriangleIO.empty, _out := TriangleIO.empty, _vor := TriangleIO.empty }

/-- A native stub that fails with status 1 and touches nothing. -/
def c4nativeFail : NativeFn :=
  fun _ i o v => { status := 1, rin := i, rout := o, rvor := v }

/-- Concrete input dict with three vertices but a four-row
vertex_attributes array. -/
def c5dict : InputDict :=
  { vertices := some { addr := 10, shape := [3, 2] },
    vertex_attributes := some { addr := 20, shape := [4, 1] } }

/-- Concrete segments array with three columns. -/
def c6seg : NpArray := { addr := 30, shape := [5, 3] }

/-- Concrete harvested record with non-NULL pointlist, trianglelist and
edgelist (plus their counts). -/
def c7rec : TriangleIO :=
  { io := { pointlist := 7, numberofpoints := 2,
            trianglelist := 9, numberoftriangles := 1, numberofcorners := 3,
            edgelist := 5, numberofedges := 3 },
    py_buffers := [], c_to_free := [] }

/-- Concrete triangles array with seven columns (an unusual corner
count). -/
def c9tris : NpArray := { addr := 50, shape := [2, 7] }

/-- Concrete input dict with triangle_attributes, triangle_max_area and
segment_markers supplied while triangles and segments are absent. -/
def c10dict : InputDict :=
  { vertices := some { addr := 10, shape := [3, 2] },
    triangle_attributes := some { addr := 60, shape := [9, 9] },
    triangle_max_area := some { addr := 61, shape := [9] },
    segment_markers := some { addr := 62, shape := [8] } }

/-- The input record TriangleIO(c10dict) builds: only the vertices key is
honoured. -/
def c10rec : TriangleIO :=
  { io := { pointlist := 10, numberofpoints := 3 },
    py_buffers := [{ addr := 10, shape := [3, 2] }], c_to_free := [] }

@[simp]
theorem andThen_error (e : String) (f : TriangleIO → Except String TriangleIO) :
    andThen (Except.error e) f = Except.error e := rfl

@[simp]
theorem andThen_ok (t : TriangleIO) (f : TriangleIO → Except String TriangleIO) :
    andThen (Except.ok t) f = f t := rfl

@[simp]
theorem optStep_none (f : TriangleIO → NpArray → Except String TriangleIO) (t : TriangleIO) :
    optStep none f t = Except.ok t := rfl

@[simp]
theorem optStep_some (a : NpArray) (f : TriangleIO → NpArray → Except String TriangleIO)
    (t : TriangleIO) : optStep (some a) f t = f t a := rfl

theorem harvestStep_py_buffers (s : TriangleIO) (p : Nat) :
    (harvestStep s p).py_buffers = s.py_buffers := by
  unfold harvestStep TriangleIO._take_cptr
  split
  · split <;> rfl
  · rfl

theorem harvestStep_io (s : TriangleIO) (p : Nat) :
    (harvestStep s p).io = s.io := by
  unfold harvestStep TriangleIO._take_cptr
  split
  · split <;> rfl
  · rfl

theorem harvestStep_c_to_free (s : TriangleIO) (p : Nat) :
    (harvestStep s p).c_to_free = s.c_to_free ++ (if p ≠ 0 then [p] else []) := by
  unfold harvestStep TriangleIO._take_cptr ptrEqData
  by_cases h : p ≠ 0
  · simp [h]
  · simp [h]

theorem foldl_harvestStep_spec (l : List Nat) (t : TriangleIO) :
    (l.foldl harvestStep t).c_to_free = t.c_to_free ++ l.filter (fun p => p ≠ 0)
      ∧ (l.foldl harvestStep t).py_buffers = t.py_buffers
      ∧ (l.foldl harvestStep t).io = t.io := by
  induction l generalizing t with
  | nil => simp
  | cons p l ih =>
    obtain ⟨h1, h2, h3⟩ := ih (harvestStep t p)
    refine ⟨?_, ?_, ?_⟩
    · rw [List.foldl_cons, h1, harvestStep_c_to_free, List.filter_cons]
      by_cases h : p ≠ 0
      · simp [h]
      · simp [h]
    · rw [List.foldl_cons, h2, harvestStep_py_buffers]
    · rw [List.foldl_cons, h3, harvestStep_io]

theorem collect_after_call_spec (t : TriangleIO) :
    t.collect_after_call.c_to_free = t.c_to_free ++ nativeHarvested t
      ∧ t.collect_after_call.py_buffers = t.py_buffers
      ∧ t.collect_after_call.io = t.io := by
  unfold TriangleIO.collect_after_call nativeHarvested
  exact foldl_harvestStep_spec (collectFields t.io) t

theorem nativeHarvested_collect (t : TriangleIO) :
    nativeHarvested t.collect_after_call = nativeHarvested t := by
  obtain ⟨-, -, h3⟩ := collect_after_call_spec t
  unfold nativeHarvested
  rw [h3]

theorem cyInit_ok_shape (d : Option InputDict) (c : CyTriangle)
    (h : CyTriangle.init d = Except.ok c) :
    c._out = TriangleIO.empty ∧ c._vor = TriangleIO.empty := by
  unfold CyTriangle.init at h
  split at h
  · cases h
  · injection h with h
    subst h
    exact ⟨rfl, rfl⟩

theorem andThen_eq_ok {r : Except String TriangleIO} {f : TriangleIO → Except String TriangleIO}
    {t2 : TriangleIO} (h : andThen r f = Except.ok t2) :
    ∃ u, r = Except.ok u ∧ f u = Except.ok t2 := by
  unfold andThen at h
  split at h
  · cases h
  · exact ⟨_, rfl, h⟩

theorem optStep_eq_ok {o : Option NpArray} {f : TriangleIO → NpArray → Except String TriangleIO}
    {t t2 : TriangleIO} (h : optStep o f t = Except.ok t2) :
    (o = none ∧ t2 = t) ∨ ∃ a, o = some a ∧ f t a = Except.ok t2 := by
  cases o with
  | none =>
    refine Or.inl ⟨rfl, ?_⟩
    unfold optStep at h
    injection h with h
    exact h.symm
  | some a => exact Or.inr ⟨a, rfl, h⟩

theorem set_vertices_frame {t : TriangleIO} {v : NpArray} {t2 : TriangleIO}
    (h : t.set_vertices v = Except.ok t2) :
    t2.c_to_free = t.c_to_free
      ∧ t2.io.triangleattributelist = t.io.triangleattributelist
      ∧ t2.io.trianglearealist = t.io.trianglearealist
      ∧ t2.io.numberoftriangleattributes = t.io.numberoftriangleattributes
      ∧ t2.io.segmentmarkerlist = t.io.segmentmarkerlist := by
  unfold TriangleIO.set_vertices TriangleIO._keep at h
  split at h
  · cases h
  · injection h with h
    subst h
    exact ⟨rfl, rfl, rfl, rfl, rfl⟩

theorem set_vertex_attributes_frame {t : TriangleIO} {a : NpArray} {t2 : TriangleIO}
    (h : t.set_vertex_attributes a = Except.ok t2) :
    t2.c_to_free = t.c_to_free
      ∧ t2.io.triangleattributelist = t.io.triangleattributelist
      ∧ t2.io.trianglearealist = t.io.trianglearealist
      ∧ t2.io.numberoftriangleattributes = t.io.numberoftriangleattributes
      ∧ t2.io.segmentmarkerlist = t.io.segmentmarkerlist := by
  unfold TriangleIO.set_vertex_attributes TriangleIO._keep at h
  split at h
  · cases h
  · split at h
    · cases h
    · split at h
      · cases h
      · injection h with h
        subst h
        exact ⟨rfl, rfl, rfl, rfl, rfl⟩

theorem set_vertex_markers_frame {t : TriangleIO} {mk : NpArray} {t2 : TriangleIO}
    (h : t.set_vertex_markers mk = Except.ok t2) :
    t2.c_to_free = t.c_to_free
      ∧ t2.io.triangleattributelist = t.io.triangleattributelist
      ∧ t2.io.trianglearealist = t.io.trianglearealist
      ∧ t2.io.numberoftriangleattributes = t.io.numberoftriangleattributes
      ∧ t2.io.segmentmarkerlist = t.io.segmentmarkerlist := by
  unfold TriangleIO.set_vertex_markers TriangleIO._keep at h
  split at h
  · cases h
  · injection h with h
    subst h
    exact ⟨rfl, rfl, rfl, rfl, rfl⟩

theorem set_triangles_frame {t : TriangleIO} {tr : NpArray} {t2 : TriangleIO}
    (h : t.set_triangles tr = Except.ok t2) :
    t2.c_to_free = t.c_to_free
      ∧ t2.io.triangleattributelist = t.io.triangleattributelist
      ∧ t2.io.trianglearealist = t.io.trianglearealist
      ∧ t2.io.numberoftriangleattributes = t.io.numberoftriangleattributes
      ∧ t2.io.segmentmarkerlist = t.io.segmentmarkerlist := by
  unfold TriangleIO.set_triangles TriangleIO._keep at h
  split at h
  · cases h
  · split at h
    · cases h
    · injection h with h
      subst h
      exact ⟨rfl, rfl, rfl, rfl, rfl⟩

theorem set_triangle_attributes_frame {t : TriangleIO} {a : NpArray} {t2 : TriangleIO}
    (h : t.set_triangle_attributes a = Except.ok t2) :
    t2.c_to_free = t.c_to_free
      ∧ t2.io.trianglearealist = t.io.trianglearealist
      ∧ t2.io.segmentmarkerlist = t.io.segmentmarkerlist := by
  unfold TriangleIO.set_triangle_attributes TriangleIO._keep at h
  split at h
  · cases h
  · split at h
    · cases h
    · split at h
      · cases h
      · injection h with h
        subst h
        exact ⟨rfl, rfl, rfl⟩

theorem set_triangle_areas_frame {t : TriangleIO} {a : NpArray} {t2 : TriangleIO}
    (h : t.set_triangle_areas a = Except.ok t2) :
    t2.c_to_free = t.c_to_free
      ∧ t2.io.triangleattributelist = t.io.triangleattributelist
      ∧ t2.io.numberoftriangleattributes = t.io.numberoftriangleattributes
      ∧ t2.io.segmentmarkerlist = t.io.segmentmarkerlist := by
  unfold TriangleIO.set_triangle_areas TriangleIO._keep at h
  split at h
  · cases h
  · injection h with h
    subst h
    exact ⟨rfl, rfl, rfl, rfl⟩

theorem set_segments_frame {t : TriangleIO} {sg : NpArray} {t2 : TriangleIO}
    (h : t.set_segments sg = Except.ok t2) :
    t2.c_to_free = t.c_to_free
      ∧ t2.io.triangleattributelist = t.io.triangleattributelist
      ∧ t2.io.trianglearealist = t.io.trianglearealist
      ∧ t2.io.numberoftriangleattributes = t.io.numberoftriangleattributes
      ∧ t2.io.segmentmarkerlist = t.io.segmentmarkerlist := by
  unfold TriangleIO.set_segments TriangleIO._keep at h
  split at h
  · cases h
  · split at h
    · cases h
    · injection h with h
      subst h
      exact ⟨rfl, rfl, rfl, rfl, rfl⟩

theorem set_segment_markers_frame {t : TriangleIO} {mk : NpArray} {t2 : TriangleIO}
    (h : t.set_segment_markers mk = Except.ok t2) :
    t2.c_to_free = t.c_to_free
      ∧ t2.io.triangleattributelist = t.io.triangleattributelist
      ∧ t2.io.trianglearealist = t.io.trianglearealist
      ∧ t2.io.numberoftriangleattributes = t.io.numberoftriangleattributes := by
  unfold TriangleIO.set_segment_markers TriangleIO._keep at h
  split at h
  · cases h
  · injection h with h
    subst h
    exact ⟨rfl, rfl, rfl, rfl⟩

theorem set_holes_frame {t : TriangleIO} {hl : NpArray} {t2 : TriangleIO}
    (h : t.set_holes hl = Except.ok t2) :
    t2.c_to_free = t.c_to_free
      ∧ t2.io.triangleattributelist = t.io.triangleattributelist
      ∧ t2.io.trianglearealist = t.io.trianglearealist
      ∧ t2.io.numberoftriangleattributes = t.io.numberoftriangleattributes
      ∧ t2.io.segmentmarkerlist = t.io.segmentmarkerlist := by
  unfold TriangleIO.set_holes TriangleIO._keep at h
  split at h
  · cases h
  · split at h
    · cases h
    · injection h with h
      subst h
      exact ⟨rfl, rfl, rfl, rfl, rfl⟩

theorem set_regions_frame {t : TriangleIO} {rg : List Region} {fresh : Nat} {t2 : TriangleIO}
    (h : t.set_regions rg fresh = Except.ok t2) :
    t2.c_to_free = t.c_to_free
      ∧ t2.io.triangleattributelist = t.io.triangleattributelist
      ∧ t2.io.trianglearealist = t.io.trianglearealist
      ∧ t2.io.numberoftriangleattributes = t.io.numberoftriangleattributes
      ∧ t2.io.segmentmarkerlist = t.io.segmentmarkerlist := by
  unfold TriangleIO.set_regions TriangleIO._keep at h
  injection h with h
  subst h
  exact ⟨rfl, rfl, rfl, rfl, rfl⟩

theorem from_dict_frame {t : TriangleIO} {d : InputDict} {t2 : TriangleIO}
    (h : t._from_dict d = Except.ok t2) :
    t2.c_to_free = t.c_to_free
      ∧ (d.triangles = none →
          t2.io.triangleattributelist = t.io.triangleattributelist
            ∧ t2.io.trianglearealist = t.io.trianglearealist
            ∧ t2.io.numberoftriangleattributes = t.io.numberoftriangleattributes)
      ∧ (d.segments = none →
          t2.io.segmentmarkerlist = t.io.segmentmarkerlist) := by
  unfold TriangleIO._from_dict at h
  obtain ⟨u1, h1, h⟩ := andThen_eq_ok h
  obtain ⟨u2, h2, h⟩ := andThen_eq_ok h
  obtain ⟨u3, h3, h⟩ := andThen_eq_ok h
  obtain ⟨u4, h4, h⟩ := andThen_eq_ok h
  obtain ⟨u5, h5, h⟩ := andThen_eq_ok h
  obtain ⟨u6, h6, h7⟩ := andThen_eq_ok h
  have f1 : u1.c_to_free = t.c_to_free
      ∧ u1.io.triangleattributelist = t.io.triangleattributelist
      ∧ u1.io.trianglearealist = t.io.trianglearealist
      ∧ u1.io.numberoftriangleattributes = t.io.numberoftriangleattributes
      ∧ u1.io.segmentmarkerlist = t.io.segmentmarkerlist := by
    rcases optStep_eq_ok h1 with ⟨-, rfl⟩ | ⟨a, -, ha⟩
    · exact ⟨rfl, rfl, rfl, rfl, rfl⟩
    · exact set_vertices_frame ha
  have f2 : u2.c_to_free = u1.c_to_free
      ∧ u2.io.triangleattributelist = u1.io.triangleattributelist
      ∧ u2.io.trianglearealist = u1.io.trianglearealist
      ∧ u2.io.numberoftriangleattributes = u1.io.numberoftriangleattributes
      ∧ u2.io.segmentmarkerlist = u1.io.segmentmarkerlist := by
    rcases optStep_eq_ok h2 with ⟨-, rfl⟩ | ⟨a, -, ha⟩
    · exact ⟨rfl, rfl, rfl, rfl, rfl⟩
    · exact set_vertex_attributes_frame ha
  have f3 : u3.c_to_free = u2.c_to_free
      ∧ u3.io.triangleattributelist = u2.io.triangleattributelist
      ∧ u3.io.trianglearealist = u2.io.trianglearealist
      ∧ u3.io.numberoftriangleattributes = u2.io.numberoftriangleattributes
      ∧ u3.io.segmentmarkerlist = u2.io.segmentmarkerlist := by
    rcases optStep_eq_ok h3 with ⟨-, rfl⟩ | ⟨a, -, ha⟩
    · exact ⟨rfl, rfl, rfl, rfl, rfl⟩
    · exact set_vertex_markers_frame ha
  have f4 : u4.c_to_free = u3.c_to_free
      ∧ (d.triangles = none →
          u4.io.triangleattributelist = u3.io.triangleattributelist
            ∧ u4.io.trianglearealist = u3.io.trianglearealist
            ∧ u4.io.numberoftriangleattributes = u3.io.numberoftriangleattributes)
      ∧ u4.io.segmentmarkerlist = u3.io.segmentmarkerlist := by
    rcases hd : d.triangles with - | tr
    · rw [hd] at h4
      injection h4 with h4
      subst h4
      exact ⟨rfl, fun _ => ⟨rfl, rfl, rfl⟩, rfl⟩
    · rw [hd] at h4
      obtain ⟨w1, hw1, h4⟩ := andThen_eq_ok h4
      obtain ⟨w2, hw2, h4⟩ := andThen_eq_ok h4
      obtain ⟨g1, -, -, -, g5⟩ := set_triangles_frame hw1
      have g2 : w2.c_to_free = w1.c_to_free
          ∧ w2.io.segmentmarkerlist = w1.io.segmentmarkerlist := by
        rcases optStep_eq_ok hw2 with ⟨-, rfl⟩ | ⟨a, -, ha⟩
        · exact ⟨rfl, rfl⟩
        · obtain ⟨x1, -, x3⟩ := set_triangle_attributes_frame ha
          exact ⟨x1, x3⟩
      have g3 : u4.c_to_free = w2.c_to_free
          ∧ u4.io.segmentmarkerlist = w2.io.segmentmarkerlist := by
        rcases optStep_eq_ok h4 with ⟨-, rfl⟩ | ⟨a, -, ha⟩
        · exact ⟨rfl, rfl⟩
        · obtain ⟨x1, -, -, x4⟩ := set_triangle_areas_frame ha
          exact ⟨x1, x4⟩
      refine ⟨by rw [g3.1, g2.1, g1], ?_, by rw [g3.2, g2.2, g5]⟩
      intro hnone
      simp at hnone
  have f5 : u5.c_to_free = u4.c_to_free
      ∧ u5.io.triangleattributelist = u4.io.triangleattributelist
      ∧ u5.io.trianglearealist = u4.io.trianglearealist
      ∧ u5.io.numberoftriangleattributes = u4.io.numberoftriangleattributes
      ∧ (d.segments = none →
          u5.io.segmentmarkerlist = u4.io.segmentmarkerlist) := by
    rcases hd : d.segments with - | sg
    · rw [hd] at h5
      injection h5 with h5
      subst h5
      exact ⟨rfl, rfl, rfl, rfl, fun _ => rfl⟩
    · rw [hd] at h5
      obtain ⟨w1, hw1, h5⟩ := andThen_eq_ok h5
      obtain ⟨g1, g2, g3, g4, -⟩ := set_segments_frame hw1
      have g5 : u5.c_to_free = w1.c_to_free
          ∧ u5.io.triangleattributelist = w1.io.triangleattributelist
          ∧ u5.io.trianglearealist = w1.io.trianglearealist
          ∧ u5.io.numberoftriangleattributes = w1.io.numberoftriangleattributes := by
        rcases optStep_eq_ok h5 with ⟨-, rfl⟩ | ⟨a, -, ha⟩
        · exact ⟨rfl, rfl, rfl, rfl⟩
        · exact set_segment_markers_frame ha
      refine ⟨by rw [g5.1, g1], by rw [g5.2.1, g2], by rw [g5.2.2.1, g3],
        by rw [g5.2.2.2, g4], ?_⟩
      intro hnone
      simp at hnone
  have f6 : u6.c_to_free = u5.c_to_free
      ∧ u6.io.triangleattributelist = u5.io.triangleattributelist
      ∧ u6.io.trianglearealist = u5.io.trianglearealist
      ∧ u6.io.numberoftriangleattributes = u5.io.numberoftriangleattributes
      ∧ u6.io.segmentmarkerlist = u5.io.segmentmarkerlist := by
    rcases optStep_eq_ok h6 with ⟨-, rfl⟩ | ⟨a, -, ha⟩
    · exact ⟨rfl, rfl, rfl, rfl, rfl⟩
    · exact set_holes_frame ha
  have f7 : t2.c_to_free = u6.c_to_free
      ∧ t2.io.triangleattributelist = u6.io.triangleattributelist
      ∧ t2.io.trianglearealist = u6.io.trianglearealist
      ∧ t2.io.numberoftriangleattributes = u6.io.numberoftriangleattributes
      ∧ t2.io.segmentmarkerlist = u6.io.segmentmarkerlist := by
    rcases hd : d.regions with - | rg
    · rw [hd] at h7
      injection h7 with h7
      subst h7
      exact ⟨rfl, rfl, rfl, rfl, rfl⟩
    · rw [hd] at h7
      exact set_regions_frame h7
  refine ⟨?_, ?_, ?_⟩
  · rw [f7.1, f6.1, f5.1, f4.1, f3.1, f2.1, f1.1]
  · intro hn
    obtain ⟨k1, k2, k3⟩ := f4.2.1 hn
    exact ⟨by rw [f7.2.1, f6.2.1, f5.2.1, k1, f3.2.1, f2.2.1, f1.2.1],
      by rw [f7.2.2.1, f6.2.2.1, f5.2.2.1, k2, f3.2.2.1, f2.2.2.1, f1.2.2.1],
      by rw [f7.2.2.2.1, f6.2.2.2.1, f5.2.2.2.1, k3, f3.2.2.2.1, f2.2.2.2.1, f1.2.2.2.1]⟩
  · intro hn
    rw [f7.2.2.2.2, f6.2.2.2.2, f5.2.2.2.2 hn, f4.2.2, f3.2.2.2.2, f2.2.2.2.2, f1.2.2.2.2]

/-- C8: for every call dispatched with verbosity setting verbose and
caller extra flags f, the option string handed to the native triangulate
entry point is the verbosity character (V when verbose, otherwise Q)
followed by the numbering-consistency flag z followed by f; the
convex_hull operation passes extra flag c and the voronoi operation
passes extra flag v. -/
theorem c8_option_string (native : NativeFn) (t : CyTriangle) (f : String) (v : Bool) :
    (t._run native f v).opts = (if v then "V" else "Q") ++ "z" ++ f
      ∧ (t.convex_hull native v).opts = (if v then "V" else "Q") ++ "z" ++ "c"
      ∧ (t.voronoi native v).opts = (if v then "V" else "Q") ++ "z" ++ "v" := by
  have h : ∀ g : String, (t._run native g v).opts = (if v then "V" else "Q") ++ "z" ++ g := by
    intro g
    simp only [CyTriangle._run]
    rw [apply_ite RunResult.opts]
    simp only [ite_self]
  exact ⟨h f, h "c", h "v"⟩

/-- C4: for every native invocation returning a non-zero status s, the
call fails with RuntimeError carrying the numeric code s, and no
harvesting is performed: neither the output nor the voronoi record gains
any ledger entries and no output record is returned. -/
theorem c4_nonzero_status_fails (native : NativeFn) (t : CyTriangle) (f : String) (v : Bool)
    (h : (native ((if v then "V" else "Q") ++ "z" ++ f) t._in.io t._out.io t._vor.io).status ≠ 0) :
    (t._run native f v).result
        = Except.error ("triangulate() returned "
            ++ toString (native ((if v then "V" else "Q") ++ "z" ++ f)
                t._in.io t._out.io t._vor.io).status)
      ∧ (t._run native f v).post._out.c_to_free = t._out.c_to_free
      ∧ (t._run native f v).post._vor.c_to_free = t._vor.c_to_free := by
  simp only [CyTriangle._run]
  rw [if_pos h]
  exact ⟨rfl, rfl, rfl⟩

/-- Witness for C4: a native stub returning status 1 makes the call fail
with an error carrying code 1 and leaves both ledgers empty. -/
theorem c4_witness :
    (c4session._run c4nativeFail "" false).result = Except.error "triangulate() returned 1"
      ∧ (c4session._run c4nativeFail "" false).post._out.c_to_free = []
      ∧ (c4session._run c4nativeFail "" false).post._vor.c_to_free = [] := by
  have h := c4_nonzero_status_fails c4nativeFail c4session "" false (by decide)
  refine ⟨?_, ?_, ?_⟩
  · rw [h.1]
    rfl
  · rw [h.2.1]
    rfl
  · rw [h.2.2]
    rfl

/-- C9: set_triangles performs no column-count validation: for every
array of shape (M,c), with any c whatsoever, it succeeds, sets the
triangle count to M and the corner count to c, keeps the buffer, and
raises no validation error. -/
theorem c9_set_triangles_no_validation (t : TriangleIO) (tris : NpArray) (m c : Nat)
    (h : tris.shape = [m, c]) :
    t.set_triangles tris
      = Except.ok { t with
          io := { t.io with
                  numberoftriangles := m
                  numberofcorners := c
                  trianglelist := tris.addr }
          py_buffers := t.py_buffers ++ [tris] } := by
  unfold TriangleIO.set_triangles npShapeAt TriangleIO._keep
  rw [h]
  rfl

/-- Witness for C9: a (2,7)-shaped triangles array is accepted and the
corner count becomes 7. -/
theorem c9_witness :
    TriangleIO.empty.set_triangles c9tris
      = Except.ok { io := { numberoftriangles := 2, numberofcorners := 7, trianglelist := 50 }
                    py_buffers := [c9tris]
                    c_to_free := [] } := by
  have h := c9_set_triangles_no_validation TriangleIO.empty c9tris 2 7 (by decide)
  rw [h]
  rfl

/-- C6: a segments array whose second dimension is not exactly 2 is
rejected with a validation error referencing segments; the setter raises
before assigning the segment count or pointer fields, so the record is
left untouched. -/
theorem c6_segments_bad_columns (t : TriangleIO) (seg : NpArray) (c : Nat)
    (h1 : seg.shape.get? 1 = some c) (h2 : c ≠ 2) :
    t.set_segments seg = Except.error "segments must be (N,2)" := by
  unfold TriangleIO.set_segments npShapeAt
  rw [h1]
  simp [h2]

/-- Witness for C6: a three-column segments array is rejected. -/
theorem c6_witness :
    TriangleIO.empty.set_segments c6seg = Except.error "segments must be (N,2)" :=
  c6_segments_bad_columns TriangleIO.empty c6seg 3 (by decide) (by decide)

/-- Counterexample for C1: on a record with one native-allocated output
pointer (address 100, not among the managed buffers) a second run of
collect_after_call registers the address again, so the ledger becomes
[100, 100] instead of staying [100]. -/
theorem c1_counterexample :
    c1rec.collect_after_call.c_to_free = [100]
      ∧ c1rec.collect_after_call.collect_after_call.c_to_free = [100, 100]
      ∧ ¬ c1rec.collect_after_call.collect_after_call.c_to_free
          = c1rec.collect_after_call.c_to_free := by decide

/-- C1 amended: collect_after_call is not idempotent.  One run appends
to the ledger exactly the non-NULL pointer fields of the struct (the
comparison against kept buffers is inert in CPython, so nothing is ever
excluded), and a second run on the resulting record appends the very
same list again, duplicating every such address. -/
theorem c1_amended_double_harvest (t : TriangleIO) :
    t.collect_after_call.c_to_free = t.c_to_free ++ nativeHarvested t
      ∧ t.collect_after_call.collect_after_call.c_to_free
          = t.c_to_free ++ nativeHarvested t ++ nativeHarvested t := by
  obtain ⟨h1, -, -⟩ := collect_after_call_spec t
  obtain ⟨h2, -, -⟩ := collect_after_call_spec t.collect_after_call
  refine ⟨h1, ?_⟩
  rw [h2, h1, nativeHarvested_collect]

/-- Counterexample for C3: __del__ does not clear the ledger (after
finalizing a record whose ledger is [100] the ledger is still [100]),
and a ledger that holds the same address twice passes it to trifree
twice in a single finalization. -/
theorem c3_counterexample :
    (c3rec.del).2.c_to_free = [100]
      ∧ ¬ (c3rec.del).2.c_to_free = []
      ∧ (c3dup.del).1.count 7 = 2 := by decide

/-- C3 amended: __del__ passes each entry of the ledger list to the
native deallocation entry point once per finalization, in list order
(hence exactly once per address when the list has no duplicates), and it
leaves the ledger as it was rather than clearing it. -/
theorem c3_amended_release_trace (t : TriangleIO) :
    (t.del).1 = t.c_to_free
      ∧ (t.del).2.c_to_free = t.c_to_free
      ∧ (t.c_to_free.Nodup → ∀ p ∈ t.c_to_free, (t.del).1.count p = 1) := by
  have hfold : ∀ (l acc : List Nat), l.foldl (fun tr p => tr ++ [p]) acc = acc ++ l := by
    intro l
    induction l with
    | nil => intro acc; simp
    | cons p l ih =>
      intro acc
      rw [List.foldl_cons, ih]
      simp
  have h1 : (t.del).1 = t.c_to_free := by
    unfold TriangleIO.del
    rw [hfold]
    simp
  refine ⟨h1, rfl, ?_⟩
  intro hnd p hp
  rw [h1]
  exact List.count_eq_one_of_mem hnd hp

/-- Witness for C3's amended theorem: finalizing a record with the
duplicate-free ledger [4, 9] frees 4 and 9 once each, in order, and the
ledger list survives unchanged. -/
theorem c3_witness :
    (c3wrec.del).1 = [4, 9]
      ∧ (c3wrec.del).1.count 4 = 1
      ∧ (c3wrec.del).2.c_to_free = [4, 9] := by
  have h := c3_amended_release_trace c3wrec
  exact ⟨h.1, h.2.2 (by decide) 4 (by decide), h.2.1⟩

/-- Counterexample for C7: on a harvested record whose edgelist field is
non-NULL (address 5, three edges) to_dict still exposes only the
vertices and triangles entries; no edges entry (nor any other field) is
produced. -/
theorem c7_counterexample :
    (c7rec.to_dict false).map Prod.fst = ["vertices", "triangles"]
      ∧ ¬ c7rec.io.edgelist = 0
      ∧ c7rec.io.numberofedges = 3 := by decide

/-- C7 amended: to_dict exposes the vertices as an (numberofpoints, 2)
array over pointlist when pointlist is non-NULL and the triangles as an
(numberoftriangles, numberofcorners) array over trianglelist when
trianglelist is non-NULL, and exposes nothing else: every key it returns
is vertices or triangles. -/
theorem c7_amended_to_dict (t : TriangleIO) (fmt : Bool) :
    (¬ t.io.pointlist = 0 →
        ("vertices", ({ addr := t.io.pointlist,
                        shape := [t.io.numberofpoints, 2] } : OutArray)) ∈ t.to_dict fmt)
      ∧ (¬ t.io.trianglelist = 0 →
          ("triangles", ({ addr := t.io.trianglelist,
                           shape := [t.io.numberoftriangles, t.io.numberofcorners] } : OutArray))
            ∈ t.to_dict fmt)
      ∧ ∀ k a, (k, a) ∈ t.to_dict fmt → k = "vertices" ∨ k = "triangles" := by
  unfold TriangleIO.to_dict
  refine ⟨?_, ?_, ?_⟩
  · intro h
    simp [h]
  · intro h
    simp [h]
  · intro k a hk
    rcases List.mem_append.1 hk with hm | hm
    · by_cases h : t.io.pointlist ≠ 0
      · rw [if_pos h] at hm
        simp at hm
        exact Or.inl hm.1
      · rw [if_neg h] at hm
        simp at hm
    · by_cases h : t.io.trianglelist ≠ 0
      · rw [if_pos h] at hm
        simp at hm
        exact Or.inr hm.1
      · rw [if_neg h] at hm
        simp at hm

/-- Witness for C7's amended theorem: on the concrete harvested record
both entries are present with the expected addresses and shapes. -/
theorem c7_amended_witness :
    ("vertices", ({ addr := 7, shape := [2, 2] } : OutArray)) ∈ c7rec.to_dict false
      ∧ ("triangles", ({ addr := 9, shape := [1, 3] } : OutArray)) ∈ c7rec.to_dict false := by
  have h := c7_amended_to_dict c7rec false
  exact ⟨h.1 (by decide), h.2.1 (by decide)⟩

/-- Counterexample for C2: the session CyTriangle(c2dict) holds a
Managed Buffer at address 100 on its input record; when the native call
succeeds leaving that very address in the output struct's pointlist,
collect_after_call still registers 100 for release, because the
classification consults the output record's own (empty) buffer list and
not the input record's. -/
theorem c2_counterexample :
    CyTriangle.init (some c2dict) = Except.ok c2session
      ∧ (c2session._run c2nativeAlias "" false).post._out.c_to_free = [100]
      ∧ 100 ∈ pyBufferAddrs c2session._in := by decide

/-- C2 amended: for a session built by CyTriangle.init the output and
voronoi records own no Managed Buffers, so after a successful call the
harvest registers for release exactly the non-NULL pointer fields of
whatever the native routine left in the respective struct — including
any address that aliases an input-record buffer. -/
theorem c2_amended_harvest_all (d : InputDict) (c : CyTriangle) (native : NativeFn)
    (f : String) (v : Bool)
    (hc : CyTriangle.init (some d) = Except.ok c)
    (h0 : (native ((if v then "V" else "Q") ++ "z" ++ f) c._in.io c._out.io c._vor.io).status
            = 0) :
    (c._run native f v).post._out.c_to_free
        = (collectFields (native ((if v then "V" else "Q") ++ "z" ++ f)
            c._in.io c._out.io c._vor.io).rout).filter (fun p => p ≠ 0)
      ∧ (c._run native f v).post._vor.c_to_free
        = (collectFields (native ((if v then "V" else "Q") ++ "z" ++ f)
            c._in.io c._out.io c._vor.io).rvor).filter (fun p => p ≠ 0) := by
  obtain ⟨ho, hv⟩ := cyInit_ok_shape (some d) c hc
  have hempty : ∀ (io2 : TriangulateIO),
      ({ TriangleIO.empty with io := io2 } : TriangleIO).collect_after_call.c_to_free
        = (collectFields io2).filter (fun p => p ≠ 0) := by
    intro io2
    obtain ⟨h1, -, -⟩ := collect_after_call_spec ({ TriangleIO.empty with io := io2 })
    rw [h1]
    unfold nativeHarvested TriangleIO.empty
    simp
  simp only [CyTriangle._run]
  rw [if_neg (not_not_intro h0)]
  constructor
  · rw [ho]
    exact hempty _
  · rw [hv]
    exact hempty _

/-- Witness for C2's amended theorem: with fresh native output arrays at
300 and 400 the output ledger becomes exactly [300, 400] and the voronoi
ledger stays empty. -/
theorem c2_amended_witness :
    (c2wsession._run c2wnative "" false).post._out.c_to_free = [300, 400]
      ∧ (c2wsession._run c2wnative "" false).post._vor.c_to_free = [] := by
  have h := c2_amended_harvest_all c2wdict c2wsession c2wnative "" false (by decide) (by decide)
  refine ⟨?_, ?_⟩
  · rw [h.1]
    rfl
  · rw [h.2]
    rfl

/-- C5: vertex_attributes whose row count differs from the established
vertices row count makes construction fail with a validation error
naming vertex_attributes (before anything reaches the native layer,
which only _run touches), and the builder never creates ledger entries:
any successful _from_dict leaves c_to_free exactly as it was. -/
theorem c5_vertex_attributes_mismatch (d : InputDict) (vv aa : NpArray) (n r : Nat)
    (hv : d.vertices = some vv) (hs : vv.shape = [n, 2])
    (ha : d.vertex_attributes = some aa) (hr : aa.shape.get? 0 = some r) (hne : r ≠ n) :
    CyTriangle.init (some d) = Except.error "vertex_attributes length mismatch"
      ∧ ∀ (t0 : TriangleIO) (d0 : InputDict) (t1 : TriangleIO),
          t0._from_dict d0 = Except.ok t1 → t1.c_to_free = t0.c_to_free := by
  constructor
  · have hsv : TriangleIO.empty.set_vertices vv
        = Except.ok { io := { numberofpoints := n, pointlist := vv.addr }
                      py_buffers := [vv]
                      c_to_free := [] } := by
      unfold TriangleIO.set_vertices NpArray.ndim TriangleIO._keep
      rw [hs]
      rfl
    have hsa : TriangleIO.set_vertex_attributes
        { io := { numberofpoints := n, pointlist := vv.addr }
          py_buffers := [vv]
          c_to_free := [] } aa = Except.error "vertex_attributes length mismatch" := by
      unfold TriangleIO.set_vertex_attributes npShapeAt
      rw [hr]
      simp [hne]
    have hfd : TriangleIO.empty._from_dict d
        = Except.error "vertex_attributes length mismatch" := by
      unfold TriangleIO._from_dict
      simp only [hv, ha, optStep_some, andThen_ok, hsv, hsa, andThen_error]
    simp only [CyTriangle.init, TriangleIO.init]
    rw [hfd]
  · intro t0 d0 t1 h
    exact (from_dict_frame h).1

/-- Witness for C5: three vertices with a four-row attribute array are
rejected with the vertex_attributes validation error. -/
theorem c5_witness :
    CyTriangle.init (some c5dict) = Except.error "vertex_attributes length mismatch" :=
  (c5_vertex_attributes_mismatch c5dict { addr := 10, shape := [3, 2] }
      { addr := 20, shape := [4, 1] } 3 4 (by decide) (by decide) (by decide) (by decide)
      (by decide)).1

/-- C10: when the triangles key is absent any supplied triangle_attributes
and triangle_max_area keys are ignored entirely (building the record
gives the same result as if they were absent, and on success the
corresponding struct fields are still 0), and likewise a supplied
segment_markers key is ignored entirely when the segments key is
absent. -/
theorem c10_ignored_keys (d : InputDict) :
    (d.triangles = none →
        TriangleIO.init (some d)
            = TriangleIO.init
                (some { d with triangle_attributes := none, triangle_max_area := none })
          ∧ ∀ t : TriangleIO, TriangleIO.init (some d) = Except.ok t →
              t.io.triangleattributelist = 0 ∧ t.io.trianglearealist = 0
                ∧ t.io.numberoftriangleattributes = 0)
      ∧ (d.segments = none →
          TriangleIO.init (some d)
              = TriangleIO.init (some { d with segment_markers := none })
            ∧ ∀ t : TriangleIO, TriangleIO.init (some d) = Except.ok t →
                t.io.segmentmarkerlist = 0) := by
  constructor
  · intro hn
    constructor
    · unfold TriangleIO.init TriangleIO._from_dict
      simp only [hn]
    · intro t ht
      unfold TriangleIO.init at ht
      obtain ⟨-, h2, -⟩ := from_dict_frame ht
      exact h2 hn
  · intro hn
    constructor
    · unfold TriangleIO.init TriangleIO._from_dict
      simp only [hn]
    · intro t ht
      unfold TriangleIO.init at ht
      obtain ⟨-, -, h3⟩ := from_dict_frame ht
      exact h3 hn

/-- Witness for C10: with triangles and segments absent, supplying
triangle_attributes, triangle_max_area and segment_markers changes
nothing, and the built record keeps those struct fields at 0. -/
theorem c10_witness :
    TriangleIO.init (some c10dict)
        = TriangleIO.init
            (some { c10dict with triangle_attributes := none, triangle_max_area := none })
      ∧ TriangleIO.init (some c10dict)
        = TriangleIO.init (some { c10dict with segment_markers := none })
      ∧ c10rec.io.triangleattributelist = 0
      ∧ c10rec.io.segmentmarkerlist = 0 := by
  have h := c10_ignored_keys c10dict
  exact ⟨(h.1 (by decide)).1, (h.2 (by decide)).1,
    ((h.1 (by decide)).2 c10rec (by decide)).1,
    (h.2 (by decide)).2 c10rec (by decide)⟩
